import Mathlib

set_option autoImplicit false

/-!
# Verification of pijuicemqtt.py

Shallow embedding of `src/pijuicemqtt.py` (PiJuice-MQTT): a daemon that
periodically reads PiJuice UPS telemetry and publishes it over MQTT, with
Home Assistant autodiscovery, an availability topic with last-will, and a
signal-driven shutdown path.

Conventions of the embedding:
* MQTT/side-effecting calls become `Event`s collected in a `List Event`
  in the exact order the Python source performs them.
* PiJuice API calls return dicts accessed with `["data"]`; a missing key
  raises `KeyError`, modelled by `Option` results.
* Python dicts that carry JSON payloads are modelled by ordered
  association lists (`JDoc`), and `json.dumps` by `dumpsDoc`.
* `\x7b`/`\x7d` escapes in string literals are literal brace characters.
-/

/-- `SERVICE_NAME = "pijuicemqtt"` (line 17 of the source). -/
def SERVICE_NAME : String := "pijuicemqtt"

/-- The version string of the installed external `pijuice` python library
(`from pijuice import __version__ as library_version`, line 15). Its value
is fixed for a given installation; the concrete string is irrelevant to
every claim (only determinism matters), so we fix a representative one. -/
def library_version : String := "1.8"

/-! ## JSON documents as the program builds them

The program only ever builds flat JSON objects whose values are strings,
ints, floats (ints divided by 1000), booleans, a string array, or one
nested object (the `device` block). `JLeaf`/`JField`/`JDoc` capture exactly
that shape, preserving Python dict insertion order. -/

/-- An atomic JSON value appearing in this program's payloads. -/
inductive JLeaf where
  | s (v : String)
  | i (v : ℤ)
  | r (v : ℚ)
  | b (v : Bool)
  | strs (v : List String)
  deriving DecidableEq, Repr

/-- A field value of a top-level payload object: a leaf or one nested
object of leaves (the `device` block). -/
inductive JField where
  | leaf (v : JLeaf)
  | obj (kvs : List (String × JLeaf))
  deriving DecidableEq, Repr

/-- A JSON object as an ordered association list, modelling a Python dict
with its insertion order. -/
abbrev JDoc := List (String × JField)

/-- First-match lookup in an ordered association list (`d[k]` / `k in d`). -/
def lookupKV {α : Type} (kvs : List (String × α)) (k : String) : Option α :=
  match kvs.find? (fun kv => kv.1 == k) with
  | some kv => some kv.2
  | none => none

/-- Python's `{**d, **o}` dict merge: keys of `d` in order, with values
overridden by `o` where present, then keys only in `o` appended in order. -/
def pyMerge {α : Type} (d o : List (String × α)) : List (String × α) :=
  d.map (fun kv => (kv.1, (lookupKV o kv.1).getD kv.2))
    ++ o.filter (fun kv => (lookupKV d kv.1).isNone)

/-! ### Serialization (`json.dumps`)

Python's `json.dumps` with default arguments: item separator `", "`,
key separator `": "`, dict insertion order preserved. Floats in this
program are exact multiples of 1/1000 (mV and mA divided by 1000) and
`repr` renders them in shortest decimal form; `milliRepr` reproduces that
for thousandth-valued numbers. String escaping is not needed for any
string this program serializes (they contain no quotes or backslashes). -/

/-- Render `t/1000` the way Python `repr` renders the corresponding float
(e.g. `4050 ↦ "4.05"`, `-120 ↦ "-0.12"`, `300 ↦ "0.3"`, `5000 ↦ "5.0"`). -/
def milliRepr (t : ℤ) : String :=
  let sign := if t < 0 then "-" else ""
  let a := t.natAbs
  let ip := a / 1000
  let fr := a % 1000
  if fr = 0 then sign ++ toString ip ++ ".0"
  else if fr % 100 = 0 then sign ++ toString ip ++ "." ++ toString (fr / 100)
  else if fr % 10 = 0 then
    sign ++ toString ip ++ "." ++ (if fr / 10 < 10 then "0" else "") ++ toString (fr / 10)
  else
    sign ++ toString ip ++ "."
      ++ (if fr < 10 then "00" else if fr < 100 then "0" else "") ++ toString fr

/-- Render a rational as Python renders the float it stands for; every
float in this program is an integer number of thousandths. -/
def ratRepr (q : ℚ) : String :=
  if (q * 1000).den = 1 then milliRepr (q * 1000).num else toString q

/-- Serialize an atomic value as `json.dumps` does. -/
def dumpsLeaf : JLeaf → String
  | .s v => "\"" ++ v ++ "\""
  | .i v => toString v
  | .r v => ratRepr v
  | .b v => if v then "true" else "false"
  | .strs v => "[" ++ String.intercalate ", " (v.map (fun x => "\"" ++ x ++ "\"")) ++ "]"

/-- Serialize an object of leaves. -/
def dumpsFlat (kvs : List (String × JLeaf)) : String :=
  "\x7b" ++ String.intercalate ", "
      (kvs.map (fun kv => "\"" ++ kv.1 ++ "\": " ++ dumpsLeaf kv.2)) ++ "\x7d"

/-- Serialize a field value. -/
def dumpsField : JField → String
  | .leaf v => dumpsLeaf v
  | .obj kvs => dumpsFlat kvs

/-- `json.dumps` on a top-level payload dict. -/
def dumpsDoc (d : JDoc) : String :=
  "\x7b" ++ String.intercalate ", "
      (d.map (fun kv => "\"" ++ kv.1 ++ "\": " ++ dumpsField kv.2)) ++ "\x7d"

/-! ## Configuration

`load_config` (lines 33-54) is modelled separately on YAML values below.
The functions `mqtt_on_connect` / `publish_pijuice` / `on_exit` access only
the fields collected in `Config`; `publish_online_status` models
`"publish_online_status" in config and config["publish_online_status"]`
(absent ≡ false). -/

/-- The configuration fields read by the callbacks. -/
structure Config where
  hostname : String
  haTopic : String
  haSensor : Bool
  expire_after : Option ℤ
  publish_period : ℚ
  publish_online_status : Bool
  deriving DecidableEq, Repr

/-- Device static metadata read during autodiscovery:
`pijuice.config.GetBatteryProfile()["data"]["capacity"]` and
`pijuice.config.GetFirmwareVersion()["data"]["version"]` (lines 77-78),
assumed readable (a `KeyError` there would escape `mqtt_on_connect`,
which no claim concerns). -/
structure DeviceMeta where
  battery_capacity : ℤ
  firmware_version : String
  deriving DecidableEq, Repr

/-- `pijuice.status.GetStatus()["data"]`: a dict whose three keys may each
be missing (`KeyError` on access). -/
structure StatusData where
  battery : Option String
  powerInput : Option String
  powerInput5vIo : Option String
  deriving DecidableEq, Repr

/-- One cycle's worth of PiJuice API results; `none` models a result dict
missing its `"data"` key, so that `[...]["data"]` raises `KeyError`. -/
structure PiJuiceReadings where
  getStatus : Option StatusData
  getChargeLevel : Option ℤ
  getBatteryVoltage : Option ℤ
  getBatteryCurrent : Option ℤ
  getBatteryTemperature : Option ℤ
  getIoVoltage : Option ℤ
  getIoCurrent : Option ℤ
  deriving DecidableEq, Repr

/-! ## Events -/

/-- One MQTT message as passed to `client.publish` / `client.will_set`. -/
structure PubMsg where
  topic : String
  payload : String
  qos : ℕ
  retain : Bool
  deriving DecidableEq, Repr

/-- Observable actions of the program, in source order. `armTimer d`
models `threading.Timer(d, publish_pijuice).start()`; `read n` models the
evaluation of a PiJuice lookup named `n` (successful or raising);
`log` models `print`; `cancelTimer`/`joinTimer` model
`timer_thread.cancel()` / `.join()`; `exitProc c` models `sys.exit(c)`. -/
inductive Event where
  | armTimer (delay : ℚ)
  | willSet (m : PubMsg)
  | publish (m : PubMsg)
  | read (name : String)
  | log (s : String)
  | cancelTimer
  | joinTimer
  | exitProc (code : ℕ)
  deriving DecidableEq, Repr

/-- Whether an event is a PiJuice field lookup. -/
def Event.isRead : Event → Bool
  | .read _ => true
  | _ => false

/-- `f"{SERVICE_NAME}/{config['hostname']}/service"`. -/
def serviceTopic (c : Config) : String :=
  SERVICE_NAME ++ "/" ++ c.hostname ++ "/service"

/-- `f"{SERVICE_NAME}/{config['hostname']}/status"`. -/
def statusTopic (c : Config) : String :=
  SERVICE_NAME ++ "/" ++ c.hostname ++ "/status"

/-! ## publish_pijuice (lines 178-215) -/

/-- One `[...]["data"]` (or `status[...]`) lookup with short-circuit on
`KeyError`: the lookup itself is recorded as a `read` event; on failure
the continuation is abandoned. -/
def step {α β : Type} (name : String) (r : Option α)
    (k : α → List Event × Option β) : List Event × Option β :=
  match r with
  | none => ([Event.read name], none)
  | some a => ((Event.read name) :: (k a).1, (k a).2)

/-- The body of the `try` block from line 198 on: the PiJuice lookups in
Python evaluation order (line 198 first, then the dict literal's entries
in order), producing the `pijuice_status` dict on success, `none` on the
first `KeyError`. Millivolt/milliamp integers are divided by 1000
(Python true division). -/
def readCycle (p : PiJuiceReadings) : List Event × Option JDoc :=
  step "GetStatus" p.getStatus fun st =>
  step "GetChargeLevel" p.getChargeLevel fun charge =>
  step "GetBatteryVoltage" p.getBatteryVoltage fun bv =>
  step "GetBatteryCurrent" p.getBatteryCurrent fun bc =>
  step "GetBatteryTemperature" p.getBatteryTemperature fun bt =>
  step "status.battery" st.battery fun sb =>
  step "status.powerInput" st.powerInput fun spi =>
  step "status.powerInput5vIo" st.powerInput5vIo fun sp5 =>
  step "GetIoVoltage" p.getIoVoltage fun iv =>
  step "GetIoCurrent" p.getIoCurrent fun ic =>
  ([], some [
    ("batteryCharge", JField.leaf (.i charge)),
    ("batteryVoltage", JField.leaf (.r ((bv : ℚ) / 1000))),
    ("batteryCurrent", JField.leaf (.r ((bc : ℚ) / 1000))),
    ("batteryTemperature", JField.leaf (.i bt)),
    ("batteryStatus", JField.leaf (.s sb)),
    ("powerInput", JField.leaf (.s spi)),
    ("powerInput5vIo", JField.leaf (.s sp5)),
    ("ioVoltage", JField.leaf (.r ((iv : ℚ) / 1000))),
    ("ioCurrent", JField.leaf (.r ((ic : ℚ) / 1000)))])

/-- The `pijuice_status` document a cycle would publish, if all lookups
succeed. -/
def statusDocument (p : PiJuiceReadings) : Option JDoc :=
  (readCycle p).2

/-- `publish_pijuice` (lines 178-215): first arm the next timer
(lines 184-186, before the `try`), then optionally the online heartbeat
(lines 190-196), then the reads; publish the status document
(qos 0, non-retained — `client.publish`'s defaults) on success, or print
the skip message on `KeyError` (lines 214-215). -/
def publish_pijuice (c : Config) (p : PiJuiceReadings) : List Event :=
  Event.armTimer c.publish_period ::
  ((if c.publish_online_status then
      [Event.publish ⟨serviceTopic c, "online", 1, true⟩]
    else []) ++
   (readCycle p).1 ++
   (match (readCycle p).2 with
    | some d => [Event.publish ⟨statusTopic c, dumpsDoc d, 0, false⟩]
    | none => [Event.log "Could not read PiJuice data, skipping"]))

/-! ## mqtt_on_connect (lines 57-158) -/

/-- `base_payload` (lines 79-95), with `expire_after` appended when the
config has it (lines 94-95). -/
def base_payload (c : Config) (m : DeviceMeta) : JDoc :=
  [("availability_topic", JField.leaf (.s (serviceTopic c))),
   ("payload_available", JField.leaf (.s "online")),
   ("payload_not_available", JField.leaf (.s "offline")),
   ("state_topic", JField.leaf (.s (statusTopic c))),
   ("json_attributes_topic", JField.leaf (.s (statusTopic c))),
   ("device", JField.obj [
      ("identifiers", .strs [SERVICE_NAME ++ "-" ++ c.hostname]),
      ("name", .s (c.hostname ++ " PiJuice")),
      ("sw_version",
        .s ("Library " ++ library_version ++ ", Firmware " ++ m.firmware_version)),
      ("model", .s ("PiJuice " ++ toString m.battery_capacity ++ " mAh")),
      ("manufacturer", .s "PiSupply")])] ++
  (match c.expire_after with
   | some e => [("expire_after", JField.leaf (.i e))]
   | none => [])

/-- Battery charge sensor payload (lines 98-104). -/
def chargePayload (c : Config) : JDoc :=
  [("name", JField.leaf (.s (c.hostname ++ " PiJuice Battery"))),
   ("unique_id", JField.leaf (.s (SERVICE_NAME ++ "-" ++ c.hostname ++ "-batteryCharge"))),
   ("value_template", JField.leaf (.s "\x7b\x7b value_json.batteryCharge \x7d\x7d")),
   ("device_class", JField.leaf (.s "battery")),
   ("unit_of_measurement", JField.leaf (.s "%"))]

/-- Power binary-sensor payload (lines 113-120). -/
def power5Payload (c : Config) : JDoc :=
  [("name", JField.leaf (.s (c.hostname ++ " PiJuice PowerInput5vIo"))),
   ("unique_id", JField.leaf (.s (SERVICE_NAME ++ "-" ++ c.hostname ++ "-powerInput5vIo"))),
   ("value_template", JField.leaf (.s "\x7b\x7b value_json.powerInput5vIo \x7d\x7d")),
   ("payload_off", JField.leaf (.s "NOT_PRESENT")),
   ("payload_on", JField.leaf (.s "PRESENT")),
   ("device_class", JField.leaf (.s "power"))]

/-- Battery temperature sensor payload (lines 129-137). -/
def tempPayload (c : Config) : JDoc :=
  [("name", JField.leaf (.s (c.hostname ++ " PiJuice BatteryTemperature"))),
   ("unique_id", JField.leaf (.s (SERVICE_NAME ++ "-" ++ c.hostname ++ "-batteryTemperature"))),
   ("value_template", JField.leaf (.s "\x7b\x7b value_json.batteryTemperature \x7d\x7d")),
   ("device_class", JField.leaf (.s "temperature")),
   ("unit_of_measurement", JField.leaf (.s "°C")),
   ("enabled_by_default", JField.leaf (.b false)),
   ("entity_category", JField.leaf (.s "diagnostic"))]

/-- Battery status sensor payload (lines 146-152). -/
def statusSensorPayload (c : Config) : JDoc :=
  [("name", JField.leaf (.s (c.hostname ++ " PiJuice BatteryStatus"))),
   ("unique_id", JField.leaf (.s (SERVICE_NAME ++ "-" ++ c.hostname ++ "-batteryStatus"))),
   ("value_template", JField.leaf (.s "\x7b\x7b value_json.batteryStatus \x7d\x7d")),
   ("enabled_by_default", JField.leaf (.b false)),
   ("entity_category", JField.leaf (.s "diagnostic"))]

/-- Topic of an autodiscovery document:
`f"{topic}/{platform}/{SERVICE_NAME}-{hostname}/{sensor}/config"`. -/
def autoconfigTopic (c : Config) (platform sensor : String) : String :=
  c.haTopic ++ "/" ++ platform ++ "/" ++ SERVICE_NAME ++ "-" ++ c.hostname
    ++ "/" ++ sensor ++ "/config"

/-- The four autodiscovery messages of one `mqtt_on_connect` run, as
(topic, serialized bytes) in publish order; each payload is
`dumps({**base_payload, **payload})`. -/
def autoconfigMessages (c : Config) (m : DeviceMeta) : List (String × String) :=
  [(autoconfigTopic c "sensor" "batteryCharge",
      dumpsDoc (pyMerge (base_payload c m) (chargePayload c))),
   (autoconfigTopic c "binary_sensor" "powerInput5vIo",
      dumpsDoc (pyMerge (base_payload c m) (power5Payload c))),
   (autoconfigTopic c "sensor" "batteryTemperature",
      dumpsDoc (pyMerge (base_payload c m) (tempPayload c))),
   (autoconfigTopic c "sensor" "batteryStatus",
      dumpsDoc (pyMerge (base_payload c m) (statusSensorPayload c)))]

/-- `mqtt_on_connect` (lines 57-158): set the last will, publish `online`
(both retained, qos 1, on the service topic), then, iff
`config["homeassistant"]["sensor"]`, print and publish the four retained
qos-1 autodiscovery documents. -/
def mqtt_on_connect (c : Config) (m : DeviceMeta) : List Event :=
  [Event.willSet ⟨serviceTopic c, "offline", 1, true⟩,
   Event.publish ⟨serviceTopic c, "online", 1, true⟩] ++
  (if c.haSensor then
     [Event.log "Publishing Home Assistant MQTT autoconfig",
      Event.publish ⟨autoconfigTopic c "sensor" "batteryCharge",
        dumpsDoc (pyMerge (base_payload c m) (chargePayload c)), 1, true⟩,
      Event.publish ⟨autoconfigTopic c "binary_sensor" "powerInput5vIo",
        dumpsDoc (pyMerge (base_payload c m) (power5Payload c)), 1, true⟩,
      Event.publish ⟨autoconfigTopic c "sensor" "batteryTemperature",
        dumpsDoc (pyMerge (base_payload c m) (tempPayload c)), 1, true⟩,
      Event.publish ⟨autoconfigTopic c "sensor" "batteryStatus",
        dumpsDoc (pyMerge (base_payload c m) (statusSensorPayload c)), 1, true⟩]
   else [])

/-! ## on_exit (lines 160-175) -/

/-- The `offline` availability message. -/
def offlineMsg (c : Config) : PubMsg :=
  ⟨serviceTopic c, "offline", 1, true⟩

/-- `on_exit` (lines 160-175): print, publish `offline` retained qos 1 on
the service topic, cancel the pending timer, join it, `sys.exit(0)`. -/
def on_exit (c : Config) : List Event :=
  [Event.log "Exiting...",
   Event.publish (offlineMsg c),
   Event.cancelTimer,
   Event.joinTimer,
   Event.exitProc 0]

/-! ## load_config (lines 33-54)

YAML values and the shallow `{**default_config, **config_override}` merge.
`platform.node()` (the system hostname) is passed in as a parameter. -/

/-- A YAML value as `yaml.safe_load` produces for this config schema. -/
inductive YVal where
  | ystr (v : String)
  | yint (v : ℤ)
  | ybool (v : Bool)
  | ynull
  | ymap (kvs : List (String × YVal))

/-- `default_config` (lines 38-51). -/
def default_config (sysHostname : String) : List (String × YVal) :=
  [("mqtt", .ymap [
      ("broker", .ystr "127.0.0.1"),
      ("port", .yint 1883),
      ("username", .ynull),
      ("password", .ynull)]),
   ("homeassistant", .ymap [
      ("topic", .ystr "homeassistant"),
      ("sensor", .ybool true)]),
   ("publish_period", .yint 30),
   ("hostname", .ystr sysHostname)]

/-- `load_config` (lines 33-54): `{**default_config, **config_override}`
— a single-level dict merge. -/
def load_config (sysHostname : String) (config_override : List (String × YVal)) :
    List (String × YVal) :=
  pyMerge (default_config sysHostname) config_override

/-- `config[k1][k2]` on a YAML map: `none` when the path is absent
(a `KeyError` in Python). -/
def ylookup2 (kvs : List (String × YVal)) (k1 k2 : String) : Option YVal :=
  match lookupKV kvs k1 with
  | some (.ymap m) => lookupKV m k2
  | _ => none

/-! ## Cycle timing

`publish_pijuice` arms `threading.Timer(publish_period, publish_pijuice)`
as its first action (lines 184-186), before the `try` body runs. A
`threading.Timer(d, f)` started at time `t` invokes `f` at `t + d`. So a
cycle starting at `t` schedules the next cycle for `t + publish_period`,
independent of how long the cycle's body takes. -/

/-- Start time of cycle N+1 given cycle N's start time: the timer is armed
at the start of cycle N with delay `period`. -/
def nextCycleStart (period t : ℚ) : ℚ := t + period

/-- Completion time of a cycle starting at `t` whose body takes `d`. -/
def cycleEnd (t d : ℚ) : ℚ := t + d

/-- Gap between cycle N completing and cycle N+1 starting. -/
def interCycleGap (period t d : ℚ) : ℚ :=
  nextCycleStart period t - cycleEnd t d

/-! ## Sample data -/

/-- `GetStatus()["data"]` of the worked example in the spec. -/
def sampleStatus : StatusData :=
  ⟨some "CHARGING_FROM_IN", some "PRESENT", some "PRESENT"⟩

/-- The spec's worked example: chargeLevel 87, batteryVoltage 4050 mV,
batteryCurrent -120 mA, batteryTemperature 29, ioVoltage 5100 mV,
ioCurrent 300 mA. -/
def sampleReadings : PiJuiceReadings :=
  ⟨some sampleStatus, some 87, some 4050, some (-120), some 29, some 5100, some 300⟩

/-- The `/status` document the spec's worked example must produce. -/
def expectedStatusDoc : JDoc :=
  [("batteryCharge", JField.leaf (.i 87)),
   ("batteryVoltage", JField.leaf (.r 4.05)),
   ("batteryCurrent", JField.leaf (.r (-0.12))),
   ("batteryTemperature", JField.leaf (.i 29)),
   ("batteryStatus", JField.leaf (.s "CHARGING_FROM_IN")),
   ("powerInput", JField.leaf (.s "PRESENT")),
   ("powerInput5vIo", JField.leaf (.s "PRESENT")),
   ("ioVoltage", JField.leaf (.r 5.1)),
   ("ioCurrent", JField.leaf (.r 0.3))]

/-- A cycle's readings in which one of the nine fields
(`status["powerInput"]`) is missing. -/
def failingReadings : PiJuiceReadings :=
  ⟨some ⟨some "CHARGING_FROM_IN", none, some "PRESENT"⟩,
   some 87, some 4050, some (-120), some 29, some 5100, some 300⟩

/-- A representative configuration with autodiscovery on. -/
def cfgSample : Config :=
  ⟨"raspberrypi", "homeassistant", true, none, 30, false⟩

/-- A representative configuration with `homeassistant.sensor = false`. -/
def cfgNoSensor : Config :=
  ⟨"raspberrypi", "homeassistant", false, none, 30, false⟩

/-- A representative configuration with `publish_online_status = true`. -/
def cfgHeartbeat : Config :=
  ⟨"raspberrypi", "homeassistant", true, none, 30, true⟩

/-- Representative device metadata (1820 mAh battery, firmware 1.5). -/
def metaSample : DeviceMeta := ⟨1820, "1.5"⟩

/-- A config file that sets `mqtt.broker` and nothing else. -/
def overrideBrokerOnly : List (String × YVal) :=
  [("mqtt", .ymap [("broker", .ystr "10.0.0.1")])]

/-! ## Helper lemmas -/

/-- Project the message out of a publish event. -/
def pubOf : Event → Option PubMsg
  | .publish m => some m
  | _ => none

/-- Project out publishes addressed to the `/status` topic. -/
def pubToStatus (c : Config) : Event → Option PubMsg
  | .publish m => if m.topic = statusTopic c then some m else none
  | _ => none

/-- All messages a trace publishes to the `/status` topic. -/
def statusPublishes (c : Config) (tr : List Event) : List PubMsg :=
  tr.filterMap (pubToStatus c)

/-- The `/service` topic and the `/status` topic never coincide. -/
lemma service_ne_status (c : Config) : serviceTopic c ≠ statusTopic c := by
  intro h
  have hd := congrArg String.data h
  simp only [serviceTopic, statusTopic, String.data_append] at hd
  have := List.append_cancel_left hd
  simp at this

/-- Every event `step` emits is a read. -/
lemma step_reads {α β : Type} (name : String) (r : Option α)
    (k : α → List Event × Option β)
    (hk : ∀ a, ∀ e ∈ (k a).1, e.isRead = true) :
    ∀ e ∈ (step name r k).1, e.isRead = true := by
  cases r with
  | none => intro e he; simp [step] at he; subst he; rfl
  | some a =>
    intro e he
    simp [step] at he
    rcases he with h | h
    · subst h; rfl
    · exact hk a e h

/-- Every event of the read phase is a read (no publish hides there). -/
lemma readCycle_reads (p : PiJuiceReadings) :
    ∀ e ∈ (readCycle p).1, e.isRead = true := by
  unfold readCycle
  apply step_reads; intro st
  apply step_reads; intro charge
  apply step_reads; intro bv
  apply step_reads; intro bc
  apply step_reads; intro bt
  apply step_reads; intro sb
  apply step_reads; intro spi
  apply step_reads; intro sp5
  apply step_reads; intro iv
  apply step_reads; intro ic
  intro e he
  simp at he

/-- The read phase publishes nothing to the `/status` topic. -/
lemma reads_no_status (c : Config) (p : PiJuiceReadings) :
    (readCycle p).1.filterMap (pubToStatus c) = [] := by
  rw [List.filterMap_eq_nil_iff]
  intro e he
  have := readCycle_reads p e he
  cases e <;> simp_all [Event.isRead, pubToStatus]

/-- A cycle whose reads all succeed publishes exactly its status document
to the `/status` topic, qos 0, non-retained. -/
lemma statusPublishes_of_some (c : Config) (p : PiJuiceReadings) (d : JDoc)
    (h : statusDocument p = some d) :
    statusPublishes c (publish_pijuice c p) =
      [⟨statusTopic c, dumpsDoc d, 0, false⟩] := by
  unfold statusDocument at h
  cases hos : c.publish_online_status <;>
    simp [statusPublishes, publish_pijuice, h, hos, reads_no_status,
      pubToStatus, service_ne_status c]

/-- The spec's worked example produces exactly the expected document. -/
lemma sample_statusDocument :
    statusDocument sampleReadings = some expectedStatusDoc := by
  simp [statusDocument, readCycle, step, sampleReadings, sampleStatus, expectedStatusDoc]
  norm_num

/-! ## Claims -/

/-- C1 (counterexample): with `publish_period = 30` and a cycle body taking
1 second, the gap between that cycle completing and the next starting is
29 seconds, not `publish_period` — the timer is armed at the start of the
cycle (lines 184-186), not after its completion. -/
theorem C1_gap_counterexample : interCycleGap 30 0 1 ≠ 30 := by
  norm_num [interCycleGap, nextCycleStart, cycleEnd]

/-- C1 (amended): the timer for cycle N+1 is armed at the start of
cycle N with delay `publish_period` (fixed-rate), so cycle N+1 starts
`publish_period` after cycle N starts; the gap between cycle N completing
and cycle N+1 starting is `publish_period` minus the body duration, and
when the body takes longer than `publish_period` the next cycle starts
before the current one completes (overlap). -/
theorem C1_cycle_timing_amended (period t d : ℚ) :
    interCycleGap period t d = period - d ∧
    nextCycleStart period t - t = period ∧
    (period < d → nextCycleStart period t < cycleEnd t d) := by
  refine ⟨by unfold interCycleGap nextCycleStart cycleEnd; ring,
    by unfold nextCycleStart; ring, fun h => ?_⟩
  unfold nextCycleStart cycleEnd
  linarith

/-- C1 (witness): at `publish_period = 30`, cycle start 0, body duration
40, the completion-to-start gap is -10 and the cycles overlap. -/
theorem C1_cycle_timing_witness :
    interCycleGap 30 0 40 = 30 - 40 ∧ nextCycleStart 30 0 - 0 = 30 ∧
    nextCycleStart 30 0 < cycleEnd 0 40 := by
  obtain ⟨h1, h2, h3⟩ := C1_cycle_timing_amended 30 0 40
  exact ⟨h1, h2, h3 (by norm_num)⟩

/-- C2: in a cycle in which one of the nine field lookups fails, nothing
is published to the `/status` topic, the skip message is printed, and the
next cycle's timer was already armed as the cycle's first action. -/
theorem C2_skip_cycle_on_missing_field (c : Config) (p : PiJuiceReadings)
    (h : statusDocument p = none) :
    (∀ msg, Event.publish msg ∈ publish_pijuice c p → msg.topic ≠ statusTopic c) ∧
    Event.log "Could not read PiJuice data, skipping" ∈ publish_pijuice c p ∧
    (publish_pijuice c p).get? 0 = some (Event.armTimer c.publish_period) := by
  unfold statusDocument at h
  refine ⟨?_, ?_, rfl⟩
  · intro msg hmem
    simp [publish_pijuice, h] at hmem
    rcases hmem with ⟨hon, hmsg⟩ | h1
    · rw [hmsg]
      exact service_ne_status c
    · have := readCycle_reads p _ h1
      simp [Event.isRead] at this
  · simp [publish_pijuice, h]

/-- C2 (witness): a cycle with `status["powerInput"]` missing publishes
nothing to `/status` and logs the skip message. -/
theorem C2_skip_cycle_witness :
    (∀ msg, Event.publish msg ∈ publish_pijuice cfgSample failingReadings →
      msg.topic ≠ statusTopic cfgSample) ∧
    Event.log "Could not read PiJuice data, skipping" ∈
      publish_pijuice cfgSample failingReadings ∧
    (publish_pijuice cfgSample failingReadings).get? 0 =
      some (Event.armTimer cfgSample.publish_period) :=
  C2_skip_cycle_on_missing_field cfgSample failingReadings rfl

/-- C3: for the spec's worked example the status document is exactly the
expected one (field order and values included), and the cycle publishes
exactly that document, serialized, to the `/status` topic with qos 0 and
`retain = false`, whatever the configuration. -/
theorem C3_status_payload (c : Config) :
    statusDocument sampleReadings = some expectedStatusDoc ∧
    statusPublishes c (publish_pijuice c sampleReadings) =
      [⟨statusTopic c, dumpsDoc expectedStatusDoc, 0, false⟩] :=
  ⟨sample_statusDocument,
   statusPublishes_of_some c sampleReadings expectedStatusDoc sample_statusDocument⟩

/-- C4: `on_exit` publishes exactly one message — `offline`, qos 1,
retained, on the `/service` topic (which is distinct from the `/status`
topic) — then cancels the pending timer, joins it, and exits with
status 0, in that order. -/
theorem C4_shutdown_sequence (c : Config) :
    (on_exit c).filterMap pubOf = [offlineMsg c] ∧
    offlineMsg c = ⟨serviceTopic c, "offline", 1, true⟩ ∧
    statusPublishes c (on_exit c) = [] ∧
    (on_exit c).get? 1 = some (Event.publish (offlineMsg c)) ∧
    (on_exit c).get? 2 = some Event.cancelTimer ∧
    (on_exit c).get? 3 = some Event.joinTimer ∧
    (on_exit c).get? 4 = some (Event.exitProc 0) := by
  refine ⟨by simp [on_exit, pubOf], rfl, ?_, rfl, rfl, rfl, rfl⟩
  simp [statusPublishes, on_exit, pubToStatus, offlineMsg, service_ne_status c]

/-- C5: the autodiscovery run is a pure function of the configuration and
the device metadata — two runs on identical inputs produce identical
(topic, serialized bytes) lists — and there are exactly 4 documents. -/
theorem C5_autodiscovery_deterministic (c₁ c₂ : Config) (m₁ m₂ : DeviceMeta)
    (hc : c₁ = c₂) (hm : m₁ = m₂) :
    autoconfigMessages c₁ m₁ = autoconfigMessages c₂ m₂ ∧
    (autoconfigMessages c₁ m₁).length = 4 := by
  subst hc; subst hm; exact ⟨rfl, rfl⟩

/-- C5 (witness): the representative configuration and metadata, twice. -/
theorem C5_autodiscovery_witness :
    autoconfigMessages cfgSample metaSample = autoconfigMessages cfgSample metaSample ∧
    (autoconfigMessages cfgSample metaSample).length = 4 :=
  C5_autodiscovery_deterministic cfgSample cfgSample metaSample metaSample rfl rfl

/-- C6 (counterexample): a config file setting `mqtt.broker` but omitting
`mqtt.port` does not yield port 1883 — the single-level
`{**default_config, **config_override}` merge (line 53) replaces the whole
`mqtt` section, leaving no `port` key at all. -/
theorem C6_defaults_counterexample :
    ylookup2 (load_config "raspberrypi" overrideBrokerOnly) "mqtt" "port" ≠
      some (YVal.yint 1883) := by
  have h : ylookup2 (load_config "raspberrypi" overrideBrokerOnly) "mqtt" "port" =
      none := rfl
  rw [h]
  exact fun hc => Option.noConfusion hc

/-- C6 (amended): each recognized *top-level* option the file omits takes
its documented default (`publish_period = 30`, `hostname` = the system
hostname, and the whole `mqtt` / `homeassistant` sections with their
documented sub-defaults when the file omits the section entirely); but a
section present in the file replaces the default section wholesale, so
sub-options omitted inside a supplied section get no defaults. -/
theorem C6_defaults_amended (hn : String) (ov : List (String × YVal))
    (h1 : lookupKV ov "publish_period" = none)
    (h2 : lookupKV ov "hostname" = none) :
    lookupKV (load_config hn ov) "publish_period" = some (.yint 30) ∧
    lookupKV (load_config hn ov) "hostname" = some (.ystr hn) ∧
    (lookupKV ov "mqtt" = none →
      ylookup2 (load_config hn ov) "mqtt" "broker" = some (.ystr "127.0.0.1") ∧
      ylookup2 (load_config hn ov) "mqtt" "port" = some (.yint 1883) ∧
      ylookup2 (load_config hn ov) "mqtt" "username" = some .ynull ∧
      ylookup2 (load_config hn ov) "mqtt" "password" = some .ynull) ∧
    (lookupKV ov "homeassistant" = none →
      ylookup2 (load_config hn ov) "homeassistant" "topic" = some (.ystr "homeassistant") ∧
      ylookup2 (load_config hn ov) "homeassistant" "sensor" = some (.ybool true)) ∧
    (∀ v, lookupKV ov "mqtt" = some v → lookupKV (load_config hn ov) "mqtt" = some v) := by
  simp only [lookupKV] at h1 h2
  refine ⟨?_, ?_, ?_, ?_, ?_⟩
  · simp [load_config, pyMerge, default_config, lookupKV, List.find?, h1]
  · simp [load_config, pyMerge, default_config, lookupKV, List.find?, h1, h2]
  · intro hm
    simp only [lookupKV] at hm
    simp [load_config, pyMerge, default_config, lookupKV, ylookup2, List.find?, hm]
  · intro hh
    simp only [lookupKV] at hh
    simp [load_config, pyMerge, default_config, lookupKV, ylookup2, List.find?, hh]
  · intro v hv
    simp only [lookupKV] at hv
    simp [load_config, pyMerge, default_config, lookupKV, List.find?, hv]

/-- C6 (witness): the empty config file gets every default. -/
theorem C6_defaults_witness :
    lookupKV (load_config "raspberrypi" []) "publish_period" = some (.yint 30) ∧
    lookupKV (load_config "raspberrypi" []) "hostname" = some (.ystr "raspberrypi") ∧
    ylookup2 (load_config "raspberrypi" []) "mqtt" "broker" = some (.ystr "127.0.0.1") ∧
    ylookup2 (load_config "raspberrypi" []) "mqtt" "port" = some (.yint 1883) ∧
    ylookup2 (load_config "raspberrypi" []) "homeassistant" "topic" =
      some (.ystr "homeassistant") ∧
    ylookup2 (load_config "raspberrypi" []) "homeassistant" "sensor" =
      some (.ybool true) := by
  obtain ⟨hp, hh, hm, hha, _⟩ := C6_defaults_amended "raspberrypi" [] rfl rfl
  exact ⟨hp, hh, (hm rfl).1, (hm rfl).2.1, (hha rfl).1, (hha rfl).2⟩

/-- C7: on every connection the first action is registering the last will
(`offline`, qos 1, retained) and the second is publishing `online` (qos 1,
retained), both on the `/service` topic; all autodiscovery publishes come
strictly after these two, and only when the sensor flag is on. -/
theorem C7_connect_ordering (c : Config) (m : DeviceMeta) :
    (mqtt_on_connect c m).take 2 =
      [Event.willSet ⟨serviceTopic c, "offline", 1, true⟩,
       Event.publish ⟨serviceTopic c, "online", 1, true⟩] ∧
    (c.haSensor = true →
      (mqtt_on_connect c m).drop 2 =
        Event.log "Publishing Home Assistant MQTT autoconfig" ::
          (autoconfigMessages c m).map (fun tp => Event.publish ⟨tp.1, tp.2, 1, true⟩)) ∧
    (c.haSensor = false → (mqtt_on_connect c m).drop 2 = []) := by
  refine ⟨?_, ?_, ?_⟩
  · cases hs : c.haSensor <;> simp [mqtt_on_connect, hs]
  · intro hs; simp [mqtt_on_connect, hs, autoconfigMessages]
  · intro hs; simp [mqtt_on_connect, hs]

/-- C7 (witness): the representative configuration, sensor flag on. -/
theorem C7_connect_ordering_witness :
    (mqtt_on_connect cfgSample metaSample).take 2 =
      [Event.willSet ⟨serviceTopic cfgSample, "offline", 1, true⟩,
       Event.publish ⟨serviceTopic cfgSample, "online", 1, true⟩] ∧
    (mqtt_on_connect cfgSample metaSample).drop 2 =
      Event.log "Publishing Home Assistant MQTT autoconfig" ::
        (autoconfigMessages cfgSample metaSample).map
          (fun tp => Event.publish ⟨tp.1, tp.2, 1, true⟩) := by
  obtain ⟨h1, h2, _⟩ := C7_connect_ordering cfgSample metaSample
  exact ⟨h1, h2 rfl⟩

/-- C8: with `homeassistant.sensor = false` the connect callback publishes
no autodiscovery document — its whole trace is the last-will registration
and the `online` publish — while a successful cycle still publishes its
status document to the `/status` topic. -/
theorem C8_sensor_disabled (c : Config) (m : DeviceMeta) (p : PiJuiceReadings)
    (d : JDoc) (hs : c.haSensor = false) (hok : statusDocument p = some d) :
    mqtt_on_connect c m =
      [Event.willSet ⟨serviceTopic c, "offline", 1, true⟩,
       Event.publish ⟨serviceTopic c, "online", 1, true⟩] ∧
    statusPublishes c (publish_pijuice c p) =
      [⟨statusTopic c, dumpsDoc d, 0, false⟩] := by
  refine ⟨by simp [mqtt_on_connect, hs], statusPublishes_of_some c p d hok⟩

/-- C8 (witness): the sensor-disabled configuration with the worked
example's readings. -/
theorem C8_sensor_disabled_witness :
    mqtt_on_connect cfgNoSensor metaSample =
      [Event.willSet ⟨serviceTopic cfgNoSensor, "offline", 1, true⟩,
       Event.publish ⟨serviceTopic cfgNoSensor, "online", 1, true⟩] ∧
    statusPublishes cfgNoSensor (publish_pijuice cfgNoSensor sampleReadings) =
      [⟨statusTopic cfgNoSensor, dumpsDoc expectedStatusDoc, 0, false⟩] :=
  C8_sensor_disabled cfgNoSensor metaSample sampleReadings expectedStatusDoc rfl
    sample_statusDocument

/-- C9: with `publish_online_status` enabled, the `online` heartbeat is
the event right after the timer arming — before every field lookup — so a
cycle aborted by a missing field still contains the heartbeat publish. -/
theorem C9_heartbeat_first (c : Config) (p : PiJuiceReadings)
    (h : c.publish_online_status = true) :
    (publish_pijuice c p).get? 1 =
      some (Event.publish ⟨serviceTopic c, "online", 1, true⟩) ∧
    (∀ i e, (publish_pijuice c p).get? i = some e → e.isRead = true → 2 ≤ i) ∧
    (statusDocument p = none →
      Event.publish ⟨serviceTopic c, "online", 1, true⟩ ∈ publish_pijuice c p) := by
  refine ⟨by simp [publish_pijuice, h], ?_, ?_⟩
  · intro i e hg hr
    match i with
    | 0 =>
      simp [publish_pijuice, h] at hg
      rw [← hg] at hr
      simp [Event.isRead] at hr
    | 1 =>
      simp [publish_pijuice, h] at hg
      rw [← hg] at hr
      simp [Event.isRead] at hr
    | (n + 2) => omega
  · intro hnone
    simp [publish_pijuice, h]

/-- C9 (witness): heartbeat-enabled configuration with a failing read. -/
theorem C9_heartbeat_first_witness :
    (publish_pijuice cfgHeartbeat failingReadings).get? 1 =
      some (Event.publish ⟨serviceTopic cfgHeartbeat, "online", 1, true⟩) ∧
    Event.publish ⟨serviceTopic cfgHeartbeat, "online", 1, true⟩ ∈
      publish_pijuice cfgHeartbeat failingReadings := by
  obtain ⟨h1, _, h3⟩ := C9_heartbeat_first cfgHeartbeat failingReadings rfl
  exact ⟨h1, h3 rfl⟩

/-- C10: every invocation of `publish_pijuice` arms the next cycle's timer
with delay `publish_period` as its very first action, whatever the
configuration and whatever the readings do (success or skip). -/
theorem C10_timer_armed_first (c : Config) (p : PiJuiceReadings) :
    (publish_pijuice c p).get? 0 = some (Event.armTimer c.publish_period) := rfl
